import Mathlib

/-!
# SmartFileOrganizer — verification of spec claims

Shallow embedding of the parts of the SmartFileOrganizer repository needed to
settle the frozen claims: the sensitive-data redactor (`utils/redaction.py`),
the risk assessor (`analysis/risk.py`), the recovery manager
(`utils/recovery.py`), the audit database (`core/database.py`,
`audit/trail.py`), the rollback manager (`core/rollback.py`) and the
organizer (`core/organizer.py`).

Python machine details are modelled as follows: `str` is `String`
(ASCII semantics for the regex character classes `\d`, `\s`, `\w`; every
concrete input appearing below is ASCII), `int` is `Int` or `Nat` where the
source value is a count, `float` confidence values are `ℚ` (the literals
involved, `0.75` and `n/100`, are exact in both models), filesystem paths are
lists of components, and the SQLite tables are association lists.
-/

namespace SmartFile

/-! ## Regex engine

A small backtracking matcher for the subset of Python `re` used by
`utils/redaction.py`: character classes, concatenation, alternation,
counted greedy repetition and the word-boundary assertion `\b`.
`reMatch` returns the list of possible suffixes remaining after a match at
the current position, in the engine's backtracking priority order (first
alternative first, greedy repetition longest first), so that the head of the
list is the match Python `re` finds.  Each result carries the character that
now precedes the remaining suffix, which is what `\b` needs.
-/

inductive RE where
  | eps : RE
  | cls : (Char → Bool) → RE
  | seq : RE → RE → RE
  | alt : RE → RE → RE
  | rep : RE → Nat → Option Nat → RE
  | wb : RE

/-- ASCII `\w`: letters, digits and underscore. -/
def isWordChar (c : Char) : Bool :=
  ('A' ≤ c && c ≤ 'Z') || ('a' ≤ c && c ≤ 'z') || ('0' ≤ c && c ≤ '9') || c == '_'

/-- `\b` holds between the previous character (`none` at the start of the
string) and the head of the remaining input. -/
def atBoundary (prev : Option Char) (s : List Char) : Bool :=
  let pw := match prev with | some c => isWordChar c | none => false
  let nw := match s with | c :: _ => isWordChar c | [] => false
  pw != nw

/-- All ways to match `r` at the start of `s`, given the character `prev`
preceding `s`; results are `(character preceding the suffix, suffix)` in
backtracking priority order.  `fuel` bounds the recursion depth; every use
below supplies enough fuel for the patterns and inputs at hand. -/
def reMatch : Nat → RE → Option Char → List Char → List (Option Char × List Char)
  | 0, _, _, _ => []
  | fuel+1, r, prev, s =>
    match r with
    | .eps => [(prev, s)]
    | .cls p =>
      match s with
      | [] => []
      | c :: rest => if p c then [(some c, rest)] else []
    | .seq a b =>
      (reMatch fuel a prev s).flatMap (fun pr => reMatch fuel b pr.1 pr.2)
    | .alt a b => reMatch fuel a prev s ++ reMatch fuel b prev s
    | .wb => if atBoundary prev s then [(prev, s)] else []
    | .rep a lo hi =>
      if lo ≠ 0 then
        (reMatch fuel a prev s).flatMap
          (fun pr => reMatch fuel (.rep a (lo - 1) (hi.map (· - 1))) pr.1 pr.2)
      else
        match hi with
        | some 0 => [(prev, s)]
        | _ =>
          ((reMatch fuel a prev s).flatMap
            (fun pr => reMatch fuel (.rep a 0 (hi.map (· - 1))) pr.1 pr.2))
          ++ [(prev, s)]

/-- Structural size of a pattern, used to compute a sufficient fuel bound. -/
def reSize : RE → Nat
  | .eps => 1
  | .cls _ => 1
  | .seq a b => reSize a + reSize b + 1
  | .alt a b => reSize a + reSize b + 1
  | .rep a _ _ => reSize a + 1
  | .wb => 1

/-- Generous fuel: enough recursion depth for any of the fixed redaction
patterns on the given input. -/
def fuelFor (r : RE) (s : List Char) : Nat :=
  (reSize r + 2) * (s.length + 2)

/-- The match Python `re` would find at this position, if any. -/
def firstMatch (r : RE) (prev : Option Char) (s : List Char) :
    Option (Option Char × List Char) :=
  (reMatch (fuelFor r s) r prev s).head?

/-- Worker for `reSub`: scan left to right over the original string; at each
position substitute the leftmost match (Python `re.sub` semantics) and
continue after it, otherwise emit the character and advance.  The `n`
argument is an upper bound on the length of `s`, making the recursion
structural. -/
def reSubGo (r : RE) (repl : List Char → List Char) :
    Nat → Option Char → List Char → List Char
  | 0, _, s => s
  | _ + 1, _, [] => []
  | n + 1, prev, c :: rest =>
    match firstMatch r prev (c :: rest) with
    | some (pc, suffix) =>
      if suffix.length < rest.length + 1 then
        repl ((c :: rest).take (rest.length + 1 - suffix.length))
          ++ reSubGo r repl n pc suffix
      else
        c :: reSubGo r repl n (some c) rest
    | none => c :: reSubGo r repl n (some c) rest

/-- Python `re.sub(r, repl, s)` with a replacement function. -/
def reSub (r : RE) (repl : List Char → List Char) (s : List Char) : List Char :=
  reSubGo r repl s.length none s

/-- Worker for `reSearch`: does `r` match at some position of `s`? -/
def reSearchGo (r : RE) : Option Char → List Char → Bool
  | prev, [] => !(reMatch (fuelFor r []) r prev []).isEmpty
  | prev, c :: rest =>
    !(reMatch (fuelFor r (c :: rest)) r prev (c :: rest)).isEmpty
      || reSearchGo r (some c) rest

/-- Python `re.search(r, s) is not None`. -/
def reSearch (r : RE) (s : List Char) : Bool :=
  reSearchGo r none s

/-! ### Pattern constructors mirroring the source regex syntax -/

/-- A literal character. -/
def chr (c : Char) : RE := .cls (· == c)

/-- A literal character under `re.IGNORECASE` / `(?i)`. -/
def chrCI (c : Char) : RE := .cls (fun x => x.toLower == c.toLower)

/-- Concatenation of a list of patterns. -/
def seqList (l : List RE) : RE := l.foldr .seq .eps

/-- A literal string. -/
def strLit (s : String) : RE := seqList (s.data.map chr)

/-- A literal string under `(?i)`. -/
def strCI (s : String) : RE := seqList (s.data.map chrCI)

/-- `{n}`: exactly `n` repetitions. -/
def repN (r : RE) (n : Nat) : RE := .rep r n (some n)

/-- `+`: one or more repetitions, greedy. -/
def rep1 (r : RE) : RE := .rep r 1 none

/-- `{n,}`: at least `n` repetitions, greedy. -/
def repMin (r : RE) (n : Nat) : RE := .rep r n none

/-- `?`: zero or one occurrence, greedy. -/
def optR (r : RE) : RE := .rep r 0 (some 1)

/-- `\d` (ASCII). -/
def digitC : RE := .cls (fun c => '0' ≤ c && c ≤ '9')

/-- `\s` (ASCII): space, tab, newline, carriage return, vertical tab, form feed. -/
def isPySpace (c : Char) : Bool :=
  c == ' ' || c == '\t' || c == '\n' || c == '\r' || c == '\x0b' || c == '\x0c'

/-! ## Redactor (`utils/redaction.py`, class `SensitiveDataRedactor`) -/

/-- `SSN_PATTERN = \b\d{3}-\d{2}-\d{4}\b` -/
def SSN_PATTERN : RE :=
  seqList [.wb, repN digitC 3, chr '-', repN digitC 2, chr '-', repN digitC 4, .wb]

/-- `CREDIT_CARD_PATTERN = \b\d{4}[-\s]?\d{4}[-\s]?\d{4}[-\s]?\d{4}\b` -/
def CREDIT_CARD_PATTERN : RE :=
  seqList [.wb, repN digitC 4, optR (.cls (fun c => c == '-' || isPySpace c)),
    repN digitC 4, optR (.cls (fun c => c == '-' || isPySpace c)),
    repN digitC 4, optR (.cls (fun c => c == '-' || isPySpace c)),
    repN digitC 4, .wb]

/-- The class `[A-Za-z0-9._%+-]` (local part of `EMAIL_PATTERN`). -/
def emailLocalC : RE :=
  .cls (fun c => ('A' ≤ c && c ≤ 'Z') || ('a' ≤ c && c ≤ 'z') ||
    ('0' ≤ c && c ≤ '9') || c == '.' || c == '_' || c == '%' || c == '+' || c == '-')

/-- The class `[A-Za-z0-9.-]` (domain part of `EMAIL_PATTERN`). -/
def emailDomC : RE :=
  .cls (fun c => ('A' ≤ c && c ≤ 'Z') || ('a' ≤ c && c ≤ 'z') ||
    ('0' ≤ c && c ≤ '9') || c == '.' || c == '-')

/-- The class `[A-Z|a-z]` (top-level-domain part of `EMAIL_PATTERN`; the
source class literally contains the pipe character). -/
def emailTldC : RE :=
  .cls (fun c => ('A' ≤ c && c ≤ 'Z') || c == '|' || ('a' ≤ c && c ≤ 'z'))

/-- `EMAIL_PATTERN = \b[A-Za-z0-9._%+-]+@[A-Za-z0-9.-]+\.[A-Z|a-z]{2,}\b` -/
def EMAIL_PATTERN : RE :=
  seqList [.wb, rep1 emailLocalC, chr '@', rep1 emailDomC, chr '.',
    repMin emailTldC 2, .wb]

/-- `PHONE_PATTERN = \b\d{3}[-.]?\d{3}[-.]?\d{4}\b` -/
def PHONE_PATTERN : RE :=
  seqList [.wb, repN digitC 3, optR (.cls (fun c => c == '-' || c == '.')),
    repN digitC 3, optR (.cls (fun c => c == '-' || c == '.')),
    repN digitC 4, .wb]

/-- `API_KEY_PATTERN = \b[A-Za-z0-9]{min_api_key_length,}\b` (compiled in
`__init__` from the configurable minimum length, default 40). -/
def API_KEY_PATTERN (minLen : Nat) : RE :=
  seqList [.wb,
    repMin (.cls (fun c => ('A' ≤ c && c ≤ 'Z') || ('a' ≤ c && c ≤ 'z') ||
      ('0' ≤ c && c ≤ '9'))) minLen,
    .wb]

/-- `PASSWORD_PATTERN = (?i)(password|passwd|pwd)[\s:=]+[^\s]+` -/
def PASSWORD_PATTERN : RE :=
  .seq (.alt (strCI "password") (.alt (strCI "passwd") (strCI "pwd")))
    (.seq (rep1 (.cls (fun c => isPySpace c || c == ':' || c == '=')))
      (rep1 (.cls (fun c => !isPySpace c))))

/-- `SensitiveDataRedactor` state: the `enabled` flag and the configurable
minimum API-key length (default 40). -/
structure Redactor where
  enabled : Bool
  min_api_key_length : Nat := 40

/-- `_redact_email`: keep the domain, mask the local part. -/
def redactEmailMatch (m : List Char) : List Char :=
  if m.contains '@' then
    "****@".data ++ (m.dropWhile (· != '@')).drop 1
  else
    "****".data

/-- Group 1 of a `PASSWORD_PATTERN` match.  Alternation priority
(`password` before `passwd` before `pwd`) means group 1 is the longest of
the three keywords that is a case-insensitive prefix of the match; the
`[\s:=]+` that must follow rules out any other parse. -/
def passwordGroup1 (m : List Char) : List Char :=
  let low := m.map Char.toLower
  if low.take 8 = "password".data then m.take 8
  else if low.take 6 = "passwd".data then m.take 6
  else m.take 3

/-- The replacement `\1: ****` for `PASSWORD_PATTERN`. -/
def redactPasswordMatch (m : List Char) : List Char :=
  passwordGroup1 m ++ ": ****".data

/-- `_redact_usernames`: the three path substitutions, in source order. -/
def redactUsernames (s : List Char) : List Char :=
  let s1 := reSub (seqList [strLit "/Users/", rep1 (.cls (· != '/')), chr '/'])
    (fun _ => "/Users/****/".data) s
  let s2 := reSub (seqList [strLit "/home/", rep1 (.cls (· != '/')), chr '/'])
    (fun _ => "/home/****/".data) s1
  reSub (seqList [strCI "C:\\Users\\", rep1 (.cls (· != '\\')), chr '\\'])
    (fun _ => "C:\\Users\\****\\".data) s2

/-- `SensitiveDataRedactor.redact`: identity when disabled, otherwise the
seven substitutions in source order. -/
def redact (rd : Redactor) (text : String) : String :=
  if !rd.enabled then text
  else
    let t1 := reSub SSN_PATTERN (fun _ => "***-**-****".data) text.data
    let t2 := reSub CREDIT_CARD_PATTERN (fun _ => "****-****-****-****".data) t1
    let t3 := reSub EMAIL_PATTERN redactEmailMatch t2
    let t4 := reSub PHONE_PATTERN (fun _ => "***-***-****".data) t3
    let t5 := reSub (API_KEY_PATTERN rd.min_api_key_length) (fun _ => "****".data) t4
    let t6 := reSub PASSWORD_PATTERN redactPasswordMatch t5
    String.mk (redactUsernames t6)

/-- `SensitiveDataRedactor.detect_sensitive_content`: one finding per
matching pattern, in source order.  (The method does not consult
`enabled`.) -/
def detect_sensitive_content (rd : Redactor) (text : String) :
    List (String × String) :=
  let s := text.data
  (if reSearch SSN_PATTERN s then [("SSN", "SSN pattern detected")] else [])
  ++ (if reSearch CREDIT_CARD_PATTERN s then
        [("CreditCard", "Credit card pattern detected")] else [])
  ++ (if reSearch EMAIL_PATTERN s then
        [("Email", "Email address detected")] else [])
  ++ (if reSearch PHONE_PATTERN s then
        [("Phone", "Phone number detected")] else [])
  ++ (if reSearch (API_KEY_PATTERN rd.min_api_key_length) s then
        [("APIKey", "Potential API key detected")] else [])
  ++ (if reSearch PASSWORD_PATTERN s then
        [("Password", "Password field detected")] else [])

/-! ## RiskAssessor (`analysis/risk.py`) -/

/-- `RiskAssessor.SYSTEM_EXTENSIONS`. -/
def SYSTEM_EXTENSIONS : List String := [".dll", ".sys", ".exe", ".so", ".dylib"]

/-- One iteration of the `for pattern_type, description in sensitive:` loop
in `calculate_risk_score`, acting on the `(score, reasons)` accumulator. -/
def riskStep (acc : Nat × List String) (f : String × String) : Nat × List String :=
  if f.1 == "SSN" || f.1 == "CreditCard" then (acc.1 + 40, acc.2 ++ [f.2 ++ " (+40)"])
  else if f.1 == "Password" || f.1 == "APIKey" then (acc.1 + 50, acc.2 ++ [f.2 ++ " (+50)"])
  else if f.1 == "Email" || f.1 == "Phone" then (acc.1 + 10, acc.2 ++ [f.2 ++ " (+10)"])
  else acc

/-- `RiskAssessor.calculate_risk_score`.  The `file_path` argument of the
source is represented by the data actually read from it: `suffix` is
`file_path.suffix` and `recently_modified` is the outcome of the
`file_path.exists()` / `st_mtime` within-24-hours check (an environmental
fact outside the pure model). -/
def calculate_risk_score (rd : Redactor) (suffix : String) (content : String)
    (file_size : Nat) (recently_modified : Bool) : Nat × List String :=
  let acc1 := if content ≠ "" then
      (detect_sensitive_content rd content).foldl riskStep (0, []) else (0, [])
  let acc2 := if file_size > 500 * 1024 * 1024 then
      (acc1.1 + 10, acc1.2 ++ ["Large file (>500MB) (+10)"]) else acc1
  let acc3 := if SYSTEM_EXTENSIONS.contains suffix.toLower then
      (acc2.1 + 30, acc2.2 ++ ["System file extension (" ++ suffix ++ ") (+30)"])
    else acc2
  let acc4 := if recently_modified then
      (acc3.1 + 20, acc3.2 ++ ["Recently modified (<24h) (+20)"]) else acc3
  (min acc4.1 100, acc4.2)

/-- `RiskAssessor.get_risk_level`. -/
def get_risk_level (score : Nat) : String :=
  if score ≤ 30 then "low" else if score ≤ 70 then "medium" else "high"

/-- `RiskAssessor.requires_approval`. -/
def requires_approval (score auto_approve_threshold : Nat) : Bool :=
  score > auto_approve_threshold

/-- The six sensitive-match classes, as booleans. -/
structure SensFlags where
  ssn : Bool
  card : Bool
  email : Bool
  phone : Bool
  apiKey : Bool
  password : Bool

/-- The match classes `calculate_risk_score` effectively sees for a given
content: none when `content` is falsy (the `if content:` guard), otherwise
one flag per pattern of `detect_sensitive_content`. -/
def contentFlags (rd : Redactor) (content : String) : SensFlags :=
  if content ≠ "" then
    { ssn := reSearch SSN_PATTERN content.data
      card := reSearch CREDIT_CARD_PATTERN content.data
      email := reSearch EMAIL_PATTERN content.data
      phone := reSearch PHONE_PATTERN content.data
      apiKey := reSearch (API_KEY_PATTERN rd.min_api_key_length) content.data
      password := reSearch PASSWORD_PATTERN content.data }
  else ⟨false, false, false, false, false, false⟩

/-- The additive contribution of the sensitive-match classes, in the order
`detect_sensitive_content` reports them. -/
def flagsScore (f : SensFlags) : Nat :=
  (if f.ssn then 40 else 0) + (if f.card then 40 else 0)
    + (if f.email then 10 else 0) + (if f.phone then 10 else 0)
    + (if f.apiKey then 50 else 0) + (if f.password then 50 else 0)

/-- `a` has no match class that `b` lacks. -/
def flagsLe (a b : SensFlags) : Prop :=
  (a.ssn = true → b.ssn = true) ∧ (a.card = true → b.card = true)
    ∧ (a.email = true → b.email = true) ∧ (a.phone = true → b.phone = true)
    ∧ (a.apiKey = true → b.apiKey = true)
    ∧ (a.password = true → b.password = true)

instance (a b : SensFlags) : Decidable (flagsLe a b) := by
  unfold flagsLe; infer_instance

/-- The environmental contribution of `calculate_risk_score` (size, system
extension, recency). -/
def envScore (suffix : String) (file_size : Nat) (recently_modified : Bool) : Nat :=
  (if file_size > 500 * 1024 * 1024 then 10 else 0)
    + (if SYSTEM_EXTENSIONS.contains suffix.toLower then 30 else 0)
    + (if recently_modified then 20 else 0)

/-- Per-finding score contribution of the risk loop. -/
def riskContrib (f : String × String) : Nat :=
  if f.1 == "SSN" || f.1 == "CreditCard" then 40
  else if f.1 == "Password" || f.1 == "APIKey" then 50
  else if f.1 == "Email" || f.1 == "Phone" then 10
  else 0

/-! ## Python `datetime` (standard library contract)

Modelled from the Python standard library: a naive `datetime` value and the
`isoformat` / `fromisoformat` pair, restricted to the shapes `isoformat`
emits (`YYYY-MM-DDTHH:MM:SS` with a `.ffffff` tail exactly when the
microsecond field is nonzero).  `recovery.py` serializes `started_at`
through this pair. -/

structure PyDateTime where
  year : Nat
  month : Nat
  day : Nat
  hour : Nat
  minute : Nat
  second : Nat
  microsecond : Nat
deriving DecidableEq, Repr

/-- Base-10 digits, least significant first, by fuel-bounded structural
recursion (so that the kernel can evaluate it; `natDigitsAux n n` agrees
with `Nat.digits 10 n`, proved below). -/
def natDigitsAux : Nat → Nat → List Nat
  | 0, _ => []
  | _ + 1, 0 => []
  | fuel + 1, n + 1 => ((n + 1) % 10) :: natDigitsAux fuel ((n + 1) / 10)

/-- Base-10 digits, most significant first (empty for 0). -/
def natDigits (n : Nat) : List Nat := (natDigitsAux n n).reverse

/-- Zero-padded digit list of width `w` (Python `%0wd`; wider numbers keep
all their digits). -/
def padDigits (w n : Nat) : List Nat :=
  List.replicate (w - (natDigits n).length) 0 ++ natDigits n

/-- The ASCII character of a decimal digit. -/
def digitChar (d : Nat) : Char := Char.ofNat (48 + d)

/-- Zero-padded decimal rendering of width `w`. -/
def fmtNum (w n : Nat) : List Char := (padDigits w n).map digitChar

/-- The character list of `datetime.isoformat()`. -/
def isoChars (d : PyDateTime) : List Char :=
  fmtNum 4 d.year ++ '-' :: fmtNum 2 d.month ++ '-' :: fmtNum 2 d.day
    ++ 'T' :: fmtNum 2 d.hour ++ ':' :: fmtNum 2 d.minute ++ ':' :: fmtNum 2 d.second
    ++ (if d.microsecond ≠ 0 then '.' :: fmtNum 6 d.microsecond else [])

/-- `datetime.isoformat()`. -/
def isoformat (d : PyDateTime) : String := String.mk (isoChars d)

/-- Decimal value of a character list (the digits are at fixed positions, so
no sign or stray characters occur on the inputs parsed below). -/
def parseNat (l : List Char) : Nat :=
  l.foldl (fun acc c => acc * 10 + (c.toNat - 48)) 0

/-- `datetime.fromisoformat`, restricted to the fixed-position format that
`isoformat` produces; malformed separators yield `none` (the Python call
raises `ValueError`). -/
def fromisoformat (s : String) : Option PyDateTime :=
  let l := s.data
  if (l.drop 4).head? = some '-' ∧ (l.drop 7).head? = some '-'
      ∧ (l.drop 10).head? = some 'T'
      ∧ (l.drop 13).head? = some ':' ∧ (l.drop 16).head? = some ':' then
    some
      { year := parseNat (l.take 4)
        month := parseNat ((l.drop 5).take 2)
        day := parseNat ((l.drop 8).take 2)
        hour := parseNat ((l.drop 11).take 2)
        minute := parseNat ((l.drop 14).take 2)
        second := parseNat ((l.drop 17).take 2)
        microsecond :=
          if (l.drop 19).head? = some '.' then parseNat ((l.drop 20).take 6) else 0 }
  else none

/-- The field bounds Python's `datetime` constructor enforces (`year ≤ 9999`,
`month ≤ 12`, and so on; only the digit-width consequences matter here). -/
def PyDateTime.valid (d : PyDateTime) : Prop :=
  d.year < 10000 ∧ d.month < 100 ∧ d.day < 100 ∧ d.hour < 100
    ∧ d.minute < 100 ∧ d.second < 100 ∧ d.microsecond < 1000000

instance (d : PyDateTime) : Decidable d.valid := by
  unfold PyDateTime.valid; infer_instance

/-! ## Python dict values (for `ScanState.to_dict` / `from_dict`) -/

inductive PyVal where
  | int (n : Int)
  | str (s : String)
  | bool (b : Bool)
deriving DecidableEq, Repr

/-- A Python dict in insertion order. -/
abbrev PyDict := List (String × PyVal)

/-- `data[k] = v`: replace the value of an existing key in place, append a
new key at the end (Python dict semantics). -/
def setKey (d : PyDict) (k : String) (v : PyVal) : PyDict :=
  match d with
  | [] => [(k, v)]
  | (k0, v0) :: rest => if k0 == k then (k0, v) :: rest else (k0, v0) :: setKey rest k v

/-! ## StateRecoveryManager (`utils/recovery.py`) -/

structure ScanState where
  scan_id : Int
  path : String
  started_at : PyDateTime
  total_files : Int
  processed_files : Int
  completed : Bool
deriving DecidableEq, Repr

/-- `ScanState.to_dict`, keys in source order. -/
def ScanState.to_dict (s : ScanState) : PyDict :=
  [("scan_id", .int s.scan_id), ("path", .str s.path),
    ("started_at", .str (isoformat s.started_at)),
    ("total_files", .int s.total_files),
    ("processed_files", .int s.processed_files),
    ("completed", .bool s.completed)]

/-- `ScanState.from_dict`.  The three mandatory keys (`data["scan_id"]`
etc.) yield `none` when missing, as the Python code raises `KeyError`; a
value of the wrong runtime type also yields `none` (downstream type
confusion in Python).  `total_files`, `processed_files` and `completed` use
`data.get` defaults `0`, `0`, `False`. -/
def ScanState.from_dict (d : PyDict) : Option ScanState :=
  match d.lookup "scan_id", d.lookup "path", d.lookup "started_at" with
  | some (.int sid), some (.str p), some (.str iso) =>
    match fromisoformat iso with
    | some dt =>
      some
        { scan_id := sid
          path := p
          started_at := dt
          total_files := (match d.lookup "total_files" with | some (.int n) => n | _ => 0)
          processed_files := (match d.lookup "processed_files" with | some (.int n) => n | _ => 0)
          completed := (match d.lookup "completed" with | some (.bool b) => b | _ => false) }
    | none => none
  | _, _, _ => none

/-- The recovery state directory.  Only `current_scan.json` is modelled
(`none` = the file does not exist, `some d` = the file holds the JSON
object `d`); no claim touches `crash.log`, `recovery_state.json` or the
lock file. -/
structure RecoveryFs where
  current_scan : Option PyDict
deriving DecidableEq, Repr

/-- `StateRecoveryManager.start_scan`: atomically write a fresh state with
`processed_files = 0`, `completed = False` (`now` is `datetime.now()`). -/
def start_scan (fs : RecoveryFs) (scan_id : Int) (path : String)
    (total_files : Int) (now : PyDateTime) : RecoveryFs :=
  let scan_state : ScanState :=
    { scan_id := scan_id, path := path, started_at := now,
      total_files := total_files, processed_files := 0, completed := false }
  { fs with current_scan := some scan_state.to_dict }

/-- `StateRecoveryManager.update_scan_progress`: rewrite the
`processed_files` entry of the existing file; no-op when the file is
absent.  The `scan_id` argument is unused by the source too. -/
def update_scan_progress (fs : RecoveryFs) (_scan_id : Int)
    (processed_files : Int) : RecoveryFs :=
  match fs.current_scan with
  | none => fs
  | some d =>
    { fs with current_scan := some (setKey d "processed_files" (.int processed_files)) }

/-- `StateRecoveryManager.complete_scan`: rewrite the existing file with
`completed = True`; the file is NOT removed.  No-op when the file is
absent. -/
def complete_scan (fs : RecoveryFs) (_scan_id : Int) : RecoveryFs :=
  match fs.current_scan with
  | none => fs
  | some d => { fs with current_scan := some (setKey d "completed" (.bool true)) }

/-- `StateRecoveryManager.clear_scan_state`: delete the file. -/
def clear_scan_state (fs : RecoveryFs) : RecoveryFs :=
  { fs with current_scan := none }

/-- `StateRecoveryManager.detect_crash`: `True` iff the file exists and
either parses to an incomplete state or fails to parse (every exception
path of the source returns `True`). -/
def detect_crash (fs : RecoveryFs) : Bool :=
  match fs.current_scan with
  | none => false
  | some d =>
    match ScanState.from_dict d with
    | some st => !st.completed
    | none => true

/-- `StateRecoveryManager.get_interrupted_scan`. -/
def get_interrupted_scan (fs : RecoveryFs) : Option ScanState :=
  match fs.current_scan with
  | none => none
  | some d =>
    match ScanState.from_dict d with
    | some st => if !st.completed then some st else none
    | none => none

/-! ## Database (`core/database.py`) and AuditTrail (`audit/trail.py`)

Filesystem paths are lists of components; the `str(path)` / `Path(s)`
round-trip of the source is elided, so `moves` rows store components
directly. -/

abbrev Pth := List String

/-- `Path.name`: the final component. -/
def pthName (p : Pth) : String := p.getLast?.getD ""

structure ScanRow where
  path : String
  file_count : Nat
deriving DecidableEq, Repr

structure ProposalRow where
  scan_id : Nat
  plan : String
  confidence : ℚ
  user_approved : Option Bool
  rolled_back : Bool
deriving DecidableEq, Repr

structure MoveRow where
  proposal_id : Nat
  original_path : Pth
  new_path : Pth
deriving DecidableEq, Repr

structure LearningRow where
  file_type : String
  target_folder : String
  user_approved : Bool
deriving DecidableEq, Repr

/-- The four tables plus the `AUTOINCREMENT` counters.  Row timestamps are
omitted: every claim below is timestamp-independent, and
`get_moves_by_proposal`'s `ORDER BY timestamp` coincides with insertion
order. -/
structure DbState where
  scans : List (Nat × ScanRow)
  proposals : List (Nat × ProposalRow)
  moves : List (Nat × MoveRow)
  learning : List (Nat × LearningRow)
  nextScanId : Nat
  nextProposalId : Nat
  nextMoveId : Nat
  nextLearningId : Nat
deriving DecidableEq, Repr

/-- `Database.add_scan`: insert and return `lastrowid`. -/
def add_scan (db : DbState) (path : String) (file_count : Nat) : Nat × DbState :=
  (db.nextScanId,
    { db with
      scans := db.scans ++ [(db.nextScanId, { path := path, file_count := file_count })]
      nextScanId := db.nextScanId + 1 })

/-- `Database.add_proposal`: `user_approved` starts as SQL `NULL`,
`rolled_back` defaults to `0`. -/
def add_proposal (db : DbState) (scan_id : Nat) (plan : String)
    (confidence : ℚ) : Nat × DbState :=
  (db.nextProposalId,
    { db with
      proposals := db.proposals ++
        [(db.nextProposalId,
          { scan_id := scan_id, plan := plan, confidence := confidence,
            user_approved := none, rolled_back := false })]
      nextProposalId := db.nextProposalId + 1 })

/-- `Database.update_proposal_approval`: `UPDATE proposals SET
user_approved = ? WHERE id = ?` — sets the column to the given value,
whatever it previously was. -/
def update_proposal_approval (db : DbState) (proposal_id : Nat)
    (approved : Bool) : DbState :=
  { db with proposals := db.proposals.map (fun ir =>
      if ir.1 = proposal_id then (ir.1, { ir.2 with user_approved := some approved })
      else ir) }

/-- `Database.add_move`. -/
def add_move (db : DbState) (proposal_id : Nat) (original_path new_path : Pth) :
    Nat × DbState :=
  (db.nextMoveId,
    { db with
      moves := db.moves ++
        [(db.nextMoveId,
          { proposal_id := proposal_id, original_path := original_path,
            new_path := new_path })]
      nextMoveId := db.nextMoveId + 1 })

/-- `Database.add_learning_data`. -/
def add_learning_data (db : DbState) (file_type target_folder : String)
    (approved : Bool) : Nat × DbState :=
  (db.nextLearningId,
    { db with
      learning := db.learning ++
        [(db.nextLearningId,
          { file_type := file_type, target_folder := target_folder,
            user_approved := approved })]
      nextLearningId := db.nextLearningId + 1 })

/-- `Database.mark_proposal_rolled_back`: `UPDATE proposals SET
rolled_back = 1 WHERE id = ?`. -/
def mark_proposal_rolled_back (db : DbState) (proposal_id : Nat) : DbState :=
  { db with proposals := db.proposals.map (fun ir =>
      if ir.1 = proposal_id then (ir.1, { ir.2 with rolled_back := true })
      else ir) }

/-- `Database.get_proposal_by_id`. -/
def get_proposal_by_id (db : DbState) (proposal_id : Nat) : Option ProposalRow :=
  db.proposals.lookup proposal_id

/-- `Database.get_moves_by_proposal` (`ORDER BY timestamp` = insertion
order). -/
def get_moves_by_proposal (db : DbState) (proposal_id : Nat) : List MoveRow :=
  (db.moves.filter (fun im => im.2.proposal_id == proposal_id)).map (·.2)

/-- The mutating `Database` methods, for quantifying over "every operation
on the store" (the remaining methods are reads). -/
inductive DbOp where
  | addScan (path : String) (file_count : Nat)
  | addProposal (scan_id : Nat) (plan : String) (confidence : ℚ)
  | updateProposalApproval (proposal_id : Nat) (approved : Bool)
  | addMove (proposal_id : Nat) (original_path new_path : Pth)
  | addLearningData (file_type target_folder : String) (approved : Bool)
  | markProposalRolledBack (proposal_id : Nat)

def applyDbOp (db : DbState) : DbOp → DbState
  | .addScan p c => (add_scan db p c).2
  | .addProposal sid plan conf => (add_proposal db sid plan conf).2
  | .updateProposalApproval pid ap => update_proposal_approval db pid ap
  | .addMove pid op np => (add_move db pid op np).2
  | .addLearningData ft tf ap => (add_learning_data db ft tf ap).2
  | .markProposalRolledBack pid => mark_proposal_rolled_back db pid

/-- One line of `audit.jsonl` (timestamps omitted as above; the
human-readable `operations.log` is not modelled). -/
inductive AuditEvent where
  | scanEv (path : String) (file_count : Nat) (scan_id : Nat)
  | proposeEv (scan_id proposal_id : Nat) (confidence : ℚ)
  | approvalEv (proposal_id : Nat) (approved : Bool)
  | executeEv (proposal_id : Nat) (files_moved : Nat) (success : Bool)
  | rollbackEv (proposal_id : Nat) (files_restored : Nat)
deriving DecidableEq, Repr

/-- Whole-system state: relational store, JSONL stream, and the filesystem
(regular files as `path ↦ contents`, plus the set of directories). -/
structure SysState where
  db : DbState
  jsonl : List AuditEvent
  files : List (Pth × String)
  dirs : List Pth
deriving DecidableEq, Repr

/-- `AuditTrail.log_scan`. -/
def log_scan (st : SysState) (path : String) (file_count : Nat) : Nat × SysState :=
  let (sid, db2) := add_scan st.db path file_count
  (sid, { st with db := db2, jsonl := st.jsonl ++ [.scanEv path file_count sid] })

/-- `AuditTrail.log_propose`. -/
def log_propose (st : SysState) (scan_id : Nat) (plan : String)
    (confidence : ℚ) : Nat × SysState :=
  let (pid, db2) := add_proposal st.db scan_id plan confidence
  (pid, { st with db := db2, jsonl := st.jsonl ++ [.proposeEv scan_id pid confidence] })

/-- `AuditTrail.log_approval`. -/
def log_approval (st : SysState) (proposal_id : Nat) (approved : Bool) : SysState :=
  { st with
    db := update_proposal_approval st.db proposal_id approved
    jsonl := st.jsonl ++ [.approvalEv proposal_id approved] }

/-- `AuditTrail.log_execute` (JSONL only). -/
def log_execute (st : SysState) (proposal_id files_moved : Nat)
    (success : Bool) : SysState :=
  { st with jsonl := st.jsonl ++ [.executeEv proposal_id files_moved success] }

/-- `AuditTrail.log_move` (relational only; the human log line is debug
level). -/
def log_move (st : SysState) (proposal_id : Nat) (original_path new_path : Pth) :
    Nat × SysState :=
  let (mid, db2) := add_move st.db proposal_id original_path new_path
  (mid, { st with db := db2 })

/-- `AuditTrail.log_rollback`: note it marks the proposal rolled back
itself (in addition to the caller in `rollback.py`). -/
def log_rollback (st : SysState) (proposal_id files_restored : Nat) : SysState :=
  { st with
    db := mark_proposal_rolled_back st.db proposal_id
    jsonl := st.jsonl ++ [.rollbackEv proposal_id files_restored] }

/-! ## Filesystem helpers -/

def fsRemove (files : List (Pth × String)) (p : Pth) : List (Pth × String) :=
  files.filter (fun e => !(e.1 == p))

/-- Create or overwrite a file. -/
def fsSet (files : List (Pth × String)) (p : Pth) (c : String) :
    List (Pth × String) :=
  fsRemove files p ++ [(p, c)]

def insertDir (dirs : List Pth) (p : Pth) : List Pth :=
  if p ∈ dirs then dirs else dirs ++ [p]

/-- Configuration snapshot: the keys the modelled components read
(`preferences.create_date_folders`, `backup.enabled`,
`backup.skip_large_files_mb`, and the organizer directory). -/
structure Config where
  create_date_folders : Bool
  backup_enabled : Bool
  skip_large_files_mb : Nat
  organizer_dir : Pth
deriving DecidableEq, Repr

/-! ## RollbackManager (`core/rollback.py`) -/

/-- One iteration of the restore loop of `rollback_proposal`, acting on
`(files, dirs, files_restored)`.  The source's `except Exception: continue`
is the identity on the accumulator; in the pure model no step raises. -/
def rollbackStep (cfg : Config) (proposal_id : Nat)
    (acc : List (Pth × String) × List Pth × Nat) (mv : MoveRow) :
    List (Pth × String) × List Pth × Nat :=
  let (files, dirs, restored) := acc
  let backup_dir := cfg.organizer_dir ++ ["backups", toString proposal_id]
  match files.lookup mv.new_path with
  | some content =>
    (fsSet (fsRemove files mv.new_path) mv.original_path content,
      insertDir dirs mv.original_path.dropLast, restored + 1)
  | none =>
    if backup_dir ∈ dirs then
      match files.lookup (backup_dir ++ [pthName mv.original_path]) with
      | some content =>
        (fsSet files mv.original_path content,
          insertDir dirs mv.original_path.dropLast, restored + 1)
      | none => (files, dirs, restored)
    else (files, dirs, restored)

/-- `RollbackManager.rollback_proposal`. -/
def rollback_proposal (cfg : Config) (st : SysState) (proposal_id : Nat) :
    SysState × (Bool × Nat) :=
  match get_proposal_by_id st.db proposal_id with
  | none => (st, (false, 0))
  | some row =>
    if row.rolled_back then (st, (false, 0))
    else
      match get_moves_by_proposal st.db proposal_id with
      | [] => (st, (true, 0))
      | mv :: rest =>
        let (files2, dirs2, restored) :=
          (mv :: rest).foldl (rollbackStep cfg proposal_id) (st.files, st.dirs, 0)
        let st2 : SysState :=
          { st with
            files := files2
            dirs := dirs2
            db := mark_proposal_rolled_back st.db proposal_id }
        (log_rollback st2 proposal_id restored, (true, restored))

/-! ## Organizer (`core/organizer.py`) -/

/-- `scanner.FileInfo` (the fields the organizer reads). -/
structure FileInfo where
  path : Pth
  size : Nat
  content : String
  doc_type : String
  categories : String × String × String × String
  risk_score : Nat
  risk_reasons : List String
deriving DecidableEq, Repr

/-- `Categorizer.build_path`: non-empty levels are appended; `General` is
dropped; the time level only appears when
`preferences.create_date_folders` is set. -/
def build_path (cfg : Config) (base_dir : Pth)
    (level1 level2 level3 level4 : String) : Pth :=
  base_dir
    ++ (if level1 != "" then [level1] else [])
    ++ (if level2 != "" && level2 != "General" then [level2] else [])
    ++ (if level3 != "" && cfg.create_date_folders then [level3] else [])
    ++ (if level4 != "" then [level4] else [])

/-- `Organizer._get_rule_based_destination`. -/
def get_rule_based_destination (cfg : Config) (fi : FileInfo) (base_dir : Pth) : Pth :=
  build_path cfg base_dir fi.categories.1 fi.categories.2.1 fi.categories.2.2.1
    fi.categories.2.2.2 ++ [pthName fi.path]

/-- `OrganizationProposal` (`proposal_id` is assigned on persist). -/
structure OrganizationProposal where
  files : List (FileInfo × Pth)
  confidence : ℚ
  reasoning : String
  proposal_id : Option Nat
deriving DecidableEq, Repr

/-- `Organizer._generate_rule_based_proposal`. -/
def generate_rule_based_proposal (cfg : Config) (files : List FileInfo)
    (base_dir : Pth) : OrganizationProposal :=
  { files := files.map (fun fi => (fi, get_rule_based_destination cfg fi base_dir)),
    confidence := 3/4, reasoning := "Rule-based organization", proposal_id := none }

/-- One suggestion of the AI response (`s["file"]`, `s["destination"]`).
The destination string may contain separators, hence components. -/
structure AiSuggestion where
  file : Pth
  destination : Pth

/-- The parsed AI response; `result.get("suggestions", [])` and
`result.get("overall_confidence", 50)` read optional keys. -/
structure AiResult where
  suggestions : Option (List AiSuggestion)
  overall_confidence : Option ℚ

/-- `OllamaProvider` as the organizer sees it: the `available` flag and
`analyze_files`, which returns `none` on connection failure or a
non-parsing response. -/
structure AiProvider where
  available : Bool
  analyze_files : List FileInfo → Option AiResult

/-- `Organizer._generate_ai_proposal`. -/
def generate_ai_proposal (p : AiProvider) (cfg : Config) (files : List FileInfo)
    (base_dir : Pth) : OrganizationProposal :=
  match p.analyze_files files with
  | none => generate_rule_based_proposal cfg files base_dir
  | some result =>
    let suggestions := result.suggestions.getD []
    let overall_confidence := (result.overall_confidence.getD 50) / 100
    let file_moves := files.map (fun fi =>
      match suggestions.find? (fun s => pthName s.file == pthName fi.path) with
      | some s => (fi, base_dir ++ s.destination ++ [pthName fi.path])
      | none => (fi, get_rule_based_destination cfg fi base_dir))
    { files := file_moves, confidence := overall_confidence,
      reasoning := "AI-generated organization plan", proposal_id := none }

/-- Stands for `json.dumps(proposal.to_dict())`; no claim depends on the
rendering, only on the fact that a plan string is persisted. -/
def planRepr (p : OrganizationProposal) : String :=
  String.intercalate ";" (p.files.map (fun fp =>
    String.intercalate "/" fp.1.path ++ ">" ++ String.intercalate "/" fp.2))

/-- `Organizer.generate_proposal`: AI path when a provider is present and
available, rule-based otherwise; then persist via
`AuditTrail.log_propose` and stamp the returned proposal with the new id. -/
def generate_proposal (ai_provider : Option AiProvider) (cfg : Config)
    (st : SysState) (scan_id : Nat) (files : List FileInfo) (base_dir : Pth) :
    OrganizationProposal × SysState :=
  let proposal :=
    match ai_provider with
    | some p =>
      if p.available then generate_ai_proposal p cfg files base_dir
      else generate_rule_based_proposal cfg files base_dir
    | none => generate_rule_based_proposal cfg files base_dir
  let (pid, st2) := log_propose st scan_id (planRepr proposal) proposal.confidence
  ({ proposal with proposal_id := some pid }, st2)

/-- `Organizer._backup_file`: skip files at or above the large-file
threshold, otherwise copy into `backups/<proposal_id>/`. -/
def backup_file (cfg : Config) (proposal_id : Nat) (src : Pth) (file_size : Nat)
    (st : SysState) : SysState :=
  let skip_large := cfg.skip_large_files_mb * 1024 * 1024
  if file_size ≥ skip_large then st
  else
    let backup_dir := cfg.organizer_dir ++ ["backups", toString proposal_id]
    { st with
      dirs := insertDir st.dirs backup_dir
      files := fsSet st.files (backup_dir ++ [pthName src])
        ((st.files.lookup src).getD "") }

/-- The body of the `execute_proposal` loop for one file that raises no
exception: create the destination directory, back up when enabled, move
the file, and append the `Move` row. -/
def execStepState (cfg : Config) (proposal_id : Nat) (fi : FileInfo)
    (dest : Pth) (st : SysState) : SysState :=
  let st1 := { st with dirs := insertDir st.dirs dest.dropLast }
  let st2 := if cfg.backup_enabled then backup_file cfg proposal_id fi.path fi.size st1
    else st1
  let content := (st2.files.lookup fi.path).getD ""
  let st3 := { st2 with files := fsSet (fsRemove st2.files fi.path) dest content }
  (log_move st3 proposal_id fi.path dest).2

/-- The per-file loop of `Organizer.execute_proposal`.  The single
`try/except` of the source wraps the WHOLE loop, so the first file whose
processing raises (modelled by `env`, covering mkdir/backup/move/audit
errors; the raise is placed before the file's filesystem effects) ends the
loop through the `except` branch: log an `execute` transition with
`success = False` and return `(False, files_moved)`. -/
def executeGo (cfg : Config) (env : Pth → Bool) (proposal_id : Nat) :
    List (FileInfo × Pth) → SysState → Nat → SysState × (Bool × Nat)
  | [], st, moved => (log_execute st proposal_id moved true, (true, moved))
  | (fi, dest) :: rest, st, moved =>
    if env fi.path then
      (log_execute st proposal_id moved false, (false, moved))
    else
      executeGo cfg env proposal_id rest (execStepState cfg proposal_id fi dest st)
        (moved + 1)

/-- `Organizer.execute_proposal`. -/
def execute_proposal (cfg : Config) (env : Pth → Bool) (st : SysState)
    (proposal : OrganizationProposal) (dry_run : Bool) : SysState × (Bool × Nat) :=
  if dry_run then (st, (true, proposal.files.length))
  else executeGo cfg env (proposal.proposal_id.getD 0) proposal.files st 0

/-! ## Concrete fixtures used by witnesses and counterexamples -/

/-- A configuration with the source defaults (`create_date_folders` off,
backups on, 500 MB threshold). -/
def sampleCfg : Config := ⟨false, true, 500, ["org"]⟩

/-- An enabled redactor with the default API-key length. -/
def rdOn : Redactor := ⟨true, 40⟩

/-- A fixed `datetime.now()` value. -/
def sampleNow : PyDateTime := ⟨2026, 1, 2, 3, 4, 5, 0⟩

/-- An empty audit store. -/
def emptyDb : DbState := ⟨[], [], [], [], 1, 1, 1, 1⟩

/-- A system state holding one already-rolled-back proposal (id 1). -/
def rbState : SysState :=
  ⟨⟨[], [(1, ⟨7, "plan", 3/4, some true, true⟩)], [], [], 1, 2, 1, 1⟩, [], [], []⟩

/-- A system state holding one approved, not rolled-back proposal (id 1)
with no `moves` rows. -/
def nmState : SysState :=
  ⟨⟨[], [(1, ⟨7, "plan", 3/4, some true, false⟩)], [], [], 1, 2, 1, 1⟩, [], [], []⟩

/-- A store holding one approved proposal (id 1). -/
def apDb : DbState := ⟨[], [(1, ⟨7, "plan", 3/4, some true, false⟩)], [], [], 1, 2, 1, 1⟩

/-- Two distinct files with the same name and the same categories. -/
def fiA : FileInfo := ⟨["a", "x.txt"], 5, "", "unknown", ("Other", "General", "2024", ""), 0, []⟩

def fiB : FileInfo := ⟨["b", "x.txt"], 6, "", "unknown", ("Other", "General", "2024", ""), 0, []⟩

/-- A system state with the two files on disk and an empty store. -/
def twoFileState : SysState :=
  ⟨emptyDb, [], [(["a", "x.txt"], "ca"), (["b", "x.txt"], "cb")], []⟩

/-- The proposal `generate_proposal` makes for the two files (persisted as
id 1). -/
def twoFileProp : OrganizationProposal :=
  (generate_proposal none sampleCfg twoFileState 7 [fiA, fiB] ["base"]).1

/-- The state after persisting that proposal. -/
def twoFilePropState : SysState :=
  (generate_proposal none sampleCfg twoFileState 7 [fiA, fiB] ["base"]).2

/-- A failure environment: processing the first file raises. -/
def envFailA : Pth → Bool := fun p => p == ["a", "x.txt"]

end SmartFile

namespace SmartFile

/-! ## Theorems -/

/-! ### Helper lemmas about the risk score -/

theorem riskStep_foldl_fst (l : List (String × String)) :
    ∀ acc : Nat × List String,
      (l.foldl riskStep acc).1 = acc.1 + (l.map riskContrib).sum := by
  induction l with
  | nil => intro acc; simp
  | cons f t ih =>
    intro acc
    rw [List.foldl_cons, ih, List.map_cons, List.sum_cons]
    have hstep : (riskStep acc f).1 = acc.1 + riskContrib f := by
      unfold riskStep riskContrib
      split
      · rfl
      · split
        · rfl
        · split
          · rfl
          · simp
    omega

theorem sum_riskContrib (rd : Redactor) (c : String) :
    ((detect_sensitive_content rd c).map riskContrib).sum
      = flagsScore
          { ssn := reSearch SSN_PATTERN c.data
            card := reSearch CREDIT_CARD_PATTERN c.data
            email := reSearch EMAIL_PATTERN c.data
            phone := reSearch PHONE_PATTERN c.data
            apiKey := reSearch (API_KEY_PATTERN rd.min_api_key_length) c.data
            password := reSearch PASSWORD_PATTERN c.data } := by
  unfold detect_sensitive_content flagsScore
  by_cases h1 : reSearch SSN_PATTERN c.data <;>
    by_cases h2 : reSearch CREDIT_CARD_PATTERN c.data <;>
    by_cases h3 : reSearch EMAIL_PATTERN c.data <;>
    by_cases h4 : reSearch PHONE_PATTERN c.data <;>
    by_cases h5 : reSearch (API_KEY_PATTERN rd.min_api_key_length) c.data <;>
    by_cases h6 : reSearch PASSWORD_PATTERN c.data <;>
    simp [h1, h2, h3, h4, h5, h6, riskContrib]

/-- The score computed by `calculate_risk_score` is the clamped sum of the
per-class contributions and the environmental contributions. -/
theorem calculate_risk_score_eq (rd : Redactor) (suffix content : String)
    (file_size : Nat) (recently_modified : Bool) :
    (calculate_risk_score rd suffix content file_size recently_modified).1
      = min (flagsScore (contentFlags rd content)
          + envScore suffix file_size recently_modified) 100 := by
  have hfold : (List.foldl riskStep (0, ([] : List String))
      (detect_sensitive_content rd content)).1
      = flagsScore
          { ssn := reSearch SSN_PATTERN content.data
            card := reSearch CREDIT_CARD_PATTERN content.data
            email := reSearch EMAIL_PATTERN content.data
            phone := reSearch PHONE_PATTERN content.data
            apiKey := reSearch (API_KEY_PATTERN rd.min_api_key_length) content.data
            password := reSearch PASSWORD_PATTERN content.data } := by
    rw [riskStep_foldl_fst, sum_riskContrib]; simp
  unfold calculate_risk_score contentFlags envScore
  dsimp only
  split_ifs <;> (try simp only [hfold]) <;> simp [flagsScore]

theorem flagsScore_mono {a b : SensFlags} (h : flagsLe a b) :
    flagsScore a ≤ flagsScore b := by
  obtain ⟨h1, h2, h3, h4, h5, h6⟩ := h
  unfold flagsScore
  have step : ∀ (x y : Bool) (n : Nat), (x = true → y = true) →
      (if x then n else 0) ≤ (if y then n else 0) := by
    intro x y n hxy
    cases x with
    | false => simp
    | true => rw [hxy rfl]
  exact Nat.add_le_add (Nat.add_le_add (Nat.add_le_add (Nat.add_le_add
    (Nat.add_le_add (step _ _ _ h1) (step _ _ _ h2)) (step _ _ _ h3))
    (step _ _ _ h4)) (step _ _ _ h5)) (step _ _ _ h6)

/-! ### C1 — second rollback of a rolled-back proposal -/

/-- C1 (amended): for every proposal that exists and has already been
rolled back, a second call to `rollback_proposal` is a no-op on file and
audit state but returns `(False, 0)` — not `(True, 0)` as the spec
states. -/
theorem C1_rollback_second_call_noop (cfg : Config) (st : SysState) (pid : Nat)
    (row : ProposalRow) (hrow : get_proposal_by_id st.db pid = some row)
    (hrb : row.rolled_back = true) :
    rollback_proposal cfg st pid = (st, (false, 0)) := by
  unfold rollback_proposal
  rw [hrow]
  simp [hrb]

/-- C1 witness: the no-op result on a concrete rolled-back proposal. -/
theorem C1_rollback_second_call_noop_witness :
    rollback_proposal sampleCfg rbState 1 = (rbState, (false, 0)) :=
  C1_rollback_second_call_noop sampleCfg rbState 1
    ⟨7, "plan", 3/4, some true, true⟩ rfl rfl

/-- C1 counterexample: proposal 1 of `rbState` exists and is rolled back,
yet `rollback_proposal` returns `(False, 0)`, not the `(true, 0)` the claim
states. -/
theorem C1_counterexample :
    (get_proposal_by_id rbState.db 1).map (fun r => r.rolled_back) = some true
      ∧ (rollback_proposal sampleCfg rbState 1).2 ≠ (true, 0) := by decide

/-! ### C9 — rollback of a proposal with zero moves -/

/-- C9: for every proposal that exists, is not rolled back, and has zero
`moves` rows, `rollback_proposal` returns `(True, 0)` without touching any
state, so the `rolled_back` flag remains `False` after the call. -/
theorem C9_rollback_zero_moves (cfg : Config) (st : SysState) (pid : Nat)
    (row : ProposalRow) (hrow : get_proposal_by_id st.db pid = some row)
    (hrb : row.rolled_back = false)
    (hmv : get_moves_by_proposal st.db pid = []) :
    rollback_proposal cfg st pid = (st, (true, 0))
      ∧ (get_proposal_by_id (rollback_proposal cfg st pid).1.db pid).map
          (fun r => r.rolled_back) = some false := by
  have h1 : rollback_proposal cfg st pid = (st, (true, 0)) := by
    unfold rollback_proposal
    rw [hrow, hmv]
    simp [hrb]
  exact ⟨h1, by rw [h1]; simp [hrow, hrb]⟩

/-- C9 witness: a concrete approved proposal with no move rows. -/
theorem C9_rollback_zero_moves_witness :
    rollback_proposal sampleCfg nmState 1 = (nmState, (true, 0))
      ∧ (get_proposal_by_id (rollback_proposal sampleCfg nmState 1).1.db 1).map
          (fun r => r.rolled_back) = some false :=
  C9_rollback_zero_moves sampleCfg nmState 1
    ⟨7, "plan", 3/4, some true, false⟩ rfl rfl rfl

/-! ### C2 — destination collisions in a proposal -/

/-- C2 (amended): the Planner performs no destination deduplication: with
no Suggester, each file of the proposal is paired with exactly its
rule-based destination, so two distinct files with the same filename and
categories receive the same destination and no ` (n)` suffix is ever
appended. -/
theorem C2_rule_based_no_dedup (cfg : Config) (st : SysState) (scan_id : Nat)
    (files : List FileInfo) (base_dir : Pth) :
    (generate_proposal none cfg st scan_id files base_dir).1.files
      = files.map (fun fi => (fi, get_rule_based_destination cfg fi base_dir)) := rfl

/-- C2 counterexample: two distinct files, one generated proposal, equal
destination paths. -/
theorem C2_counterexample :
    fiA ≠ fiB
      ∧ twoFileProp.files.map Prod.snd
          = [["base", "Other", "x.txt"], ["base", "Other", "x.txt"]] := by decide

/-- Unfolding lemma: the proposal returned by `generate_proposal` is the
AI- or rule-based proposal stamped with the next proposal id. -/
theorem generate_proposal_fst (ai : Option AiProvider) (cfg : Config)
    (st : SysState) (scan_id : Nat) (files : List FileInfo) (base_dir : Pth) :
    (generate_proposal ai cfg st scan_id files base_dir).1
      = { (match ai with
            | some p =>
              if p.available then generate_ai_proposal p cfg files base_dir
              else generate_rule_based_proposal cfg files base_dir
            | none => generate_rule_based_proposal cfg files base_dir) with
          proposal_id := some st.db.nextProposalId } := rfl

/-! ### C6 — Planner fallback to rule-based destinations -/

/-- C6: when the Suggester is absent, unavailable, or its response fails to
parse (`analyze_files` returns `None`), the Planner returns a proposal
whose destination for each file is the rule-based destination, whose
confidence is exactly 0.75, and whose reasoning is
"Rule-based organization". -/
theorem C6_planner_rule_based_fallback (ai : Option AiProvider) (cfg : Config)
    (st : SysState) (scan_id : Nat) (files : List FileInfo) (base_dir : Pth)
    (h : ai = none
      ∨ ∃ p, ai = some p ∧ (p.available = false ∨ p.analyze_files files = none)) :
    (generate_proposal ai cfg st scan_id files base_dir).1.files
        = files.map (fun fi => (fi, get_rule_based_destination cfg fi base_dir))
      ∧ (generate_proposal ai cfg st scan_id files base_dir).1.confidence = 3 / 4
      ∧ (generate_proposal ai cfg st scan_id files base_dir).1.reasoning
          = "Rule-based organization" := by
  rcases h with h | ⟨p, hp, hcase⟩
  · subst h
    exact ⟨rfl, rfl, rfl⟩
  · subst hp
    by_cases hav : p.available
    · rcases hcase with hfalse | han
      · rw [hav] at hfalse; cases hfalse
      · refine ⟨?_, ?_, ?_⟩ <;>
          rw [generate_proposal_fst] <;>
          simp [hav, generate_ai_proposal, han, generate_rule_based_proposal]
    · refine ⟨?_, ?_, ?_⟩ <;>
        rw [generate_proposal_fst] <;>
        simp [hav, generate_rule_based_proposal]

/-- C6 witness: no provider, one concrete file. -/
theorem C6_planner_rule_based_fallback_witness :
    (generate_proposal none sampleCfg twoFileState 7 [fiA] ["base"]).1.files
        = [fiA].map (fun fi => (fi, get_rule_based_destination sampleCfg fi ["base"]))
      ∧ (generate_proposal none sampleCfg twoFileState 7 [fiA] ["base"]).1.confidence = 3 / 4
      ∧ (generate_proposal none sampleCfg twoFileState 7 [fiA] ["base"]).1.reasoning
          = "Rule-based organization" :=
  C6_planner_rule_based_fallback none sampleCfg twoFileState 7 [fiA] ["base"] (Or.inl rfl)

/-! ### C5 — proposal immutability and flag monotonicity in the store -/

/-- Looking up a key in a table whose rows were conditionally rewritten at
`pid`. -/
theorem lookup_map_ite {α : Type} (l : List (Nat × α)) (pid k : Nat) (f : α → α) :
    (l.map (fun ir => if ir.1 = pid then (ir.1, f ir.2) else ir)).lookup k
      = if k = pid then (l.lookup k).map f else l.lookup k := by
  induction l with
  | nil => simp [List.lookup]
  | cons a t ih =>
    obtain ⟨i, r⟩ := a
    simp only [List.map_cons]
    by_cases hip : i = pid
    · subst hip
      by_cases hk : k = i
      · subst hk
        simp [List.lookup_cons]
      · have hbeq : (k == i) = false := beq_false_of_ne hk
        simp [List.lookup_cons, hbeq, ih, hk]
    · rw [if_neg hip]
      by_cases hk : k = i
      · subst hk
        simp [List.lookup_cons, hip]
      · have hbeq : (k == i) = false := beq_false_of_ne hk
        simp [List.lookup_cons, hbeq, ih]

/-- A key found on the left of an append is found in the append. -/
theorem lookup_append_some {α : Type} (l l2 : List (Nat × α)) (k : Nat) (v : α)
    (h : l.lookup k = some v) : (l ++ l2).lookup k = some v := by
  induction l with
  | nil => simp [List.lookup] at h
  | cons a t ih =>
    obtain ⟨i, r⟩ := a
    rw [List.cons_append, List.lookup_cons]
    rw [List.lookup_cons] at h
    cases hik : (k == i) with
    | true => rw [hik] at h; exact h
    | false => rw [hik] at h; exact ih h

/-- C5 (amended): every mutating store operation preserves an existing
proposal's plan bytes, scan id and confidence, and moves `rolled_back` only
monotonically (false→true); `user_approved`, however, is set to whatever
value `update_proposal_approval` is called with and is NOT monotone (see
the counterexample). -/
theorem C5_store_plan_immutable (db : DbState) (op : DbOp) (pid : Nat)
    (row : ProposalRow) (hrow : get_proposal_by_id db pid = some row) :
    ∃ rowN, get_proposal_by_id (applyDbOp db op) pid = some rowN
      ∧ rowN.plan = row.plan ∧ rowN.scan_id = row.scan_id
      ∧ rowN.confidence = row.confidence
      ∧ (row.rolled_back = true → rowN.rolled_back = true) := by
  cases op with
  | addScan p c => exact ⟨row, hrow, rfl, rfl, rfl, fun h => h⟩
  | addProposal sid plan conf =>
    exact ⟨row, lookup_append_some _ _ _ _ hrow, rfl, rfl, rfl, fun h => h⟩
  | addMove mpid op2 np => exact ⟨row, hrow, rfl, rfl, rfl, fun h => h⟩
  | addLearningData ft tf ap => exact ⟨row, hrow, rfl, rfl, rfl, fun h => h⟩
  | updateProposalApproval pid2 ap =>
    have hrow2 : db.proposals.lookup pid = some row := hrow
    have hl := lookup_map_ite db.proposals pid2 pid
      (fun r => { r with user_approved := some ap })
    by_cases hp : pid = pid2
    · refine ⟨{ row with user_approved := some ap }, ?_, rfl, rfl, rfl, fun h => h⟩
      show (db.proposals.map _).lookup pid = _
      rw [hl, if_pos hp, hrow2]; rfl
    · refine ⟨row, ?_, rfl, rfl, rfl, fun h => h⟩
      show (db.proposals.map _).lookup pid = _
      rw [hl, if_neg hp, hrow2]
  | markProposalRolledBack pid2 =>
    have hrow2 : db.proposals.lookup pid = some row := hrow
    have hl := lookup_map_ite db.proposals pid2 pid
      (fun r => { r with rolled_back := true })
    by_cases hp : pid = pid2
    · refine ⟨{ row with rolled_back := true }, ?_, rfl, rfl, rfl, fun _ => rfl⟩
      show (db.proposals.map _).lookup pid = _
      rw [hl, if_pos hp, hrow2]; rfl
    · refine ⟨row, ?_, rfl, rfl, rfl, fun h => h⟩
      show (db.proposals.map _).lookup pid = _
      rw [hl, if_neg hp, hrow2]

/-- C5 witness: marking a concrete proposal rolled back keeps plan, scan id
and confidence and keeps `rolled_back` monotone. -/
theorem C5_store_plan_immutable_witness :
    ∃ rowN, get_proposal_by_id (applyDbOp apDb (.markProposalRolledBack 1)) 1 = some rowN
      ∧ rowN.plan = "plan" ∧ rowN.scan_id = 7 ∧ rowN.confidence = 3 / 4
      ∧ ((⟨7, "plan", 3 / 4, some true, false⟩ : ProposalRow).rolled_back = true
          → rowN.rolled_back = true) :=
  C5_store_plan_immutable apDb (.markProposalRolledBack 1) 1
    ⟨7, "plan", 3 / 4, some true, false⟩ rfl

/-- C5 counterexample: `update_proposal_approval(1, False)` on an approved
proposal sets the already-true `user_approved` flag back to false, so the
flags are not monotone. -/
theorem C5_counterexample :
    (get_proposal_by_id apDb 1).map (fun r => r.user_approved) = some (some true)
      ∧ (get_proposal_by_id (applyDbOp apDb (.updateProposalApproval 1 false)) 1).map
          (fun r => r.user_approved) = some (some false) :=
  ⟨rfl, rfl⟩

/-! ### C4 — `complete_scan` and the recovery state file -/

theorem lookup_setKey_self (d : PyDict) (k : String) (v : PyVal) :
    (setKey d k v).lookup k = some v := by
  induction d with
  | nil => simp [setKey, List.lookup_cons]
  | cons a t ih =>
    obtain ⟨k0, v0⟩ := a
    by_cases h : k0 = k
    · subst h
      simp [setKey, List.lookup_cons]
    · have h1 : (k0 == k) = false := beq_false_of_ne h
      have h2 : (k == k0) = false := beq_false_of_ne (fun hh => h hh.symm)
      simp [setKey, h1, h2, List.lookup_cons, ih]

theorem lookup_setKey_ne (d : PyDict) (k k2 : String) (v : PyVal)
    (h : k2 ≠ k) : (setKey d k v).lookup k2 = d.lookup k2 := by
  induction d with
  | nil =>
    have h1 : (k2 == k) = false := beq_false_of_ne h
    simp [setKey, List.lookup_cons, h1, List.lookup]
  | cons a t ih =>
    obtain ⟨k0, v0⟩ := a
    by_cases h0 : k0 = k
    · subst h0
      have h1 : (k2 == k0) = false := beq_false_of_ne h
      simp [setKey, List.lookup_cons, h1]
    · have h1 : (k0 == k) = false := beq_false_of_ne h0
      simp [setKey, h1, List.lookup_cons, ih]

/-- Setting `completed` to `True` in the raw dict and then parsing is
parsing and then setting the `completed` field. -/
theorem from_dict_setKey_completed (d : PyDict) :
    ScanState.from_dict (setKey d "completed" (.bool true))
      = (ScanState.from_dict d).map (fun st => { st with completed := true }) := by
  unfold ScanState.from_dict
  rw [lookup_setKey_ne d "completed" "scan_id" _ (by decide),
    lookup_setKey_ne d "completed" "path" _ (by decide),
    lookup_setKey_ne d "completed" "started_at" _ (by decide),
    lookup_setKey_ne d "completed" "total_files" _ (by decide),
    lookup_setKey_ne d "completed" "processed_files" _ (by decide),
    lookup_setKey_self d "completed" (.bool true)]
  cases d.lookup "scan_id" with
  | none => rfl
  | some v1 =>
    cases v1 with
    | int sid =>
      cases d.lookup "path" with
      | none => rfl
      | some v2 =>
        cases v2 with
        | str p =>
          cases d.lookup "started_at" with
          | none => rfl
          | some v3 =>
            cases v3 with
            | str iso =>
              dsimp only
              cases fromisoformat iso with
              | none => rfl
              | some dt => rfl
            | int n => rfl
            | bool b => rfl
        | int n => rfl
        | bool b => rfl
    | str s2 => rfl
    | bool b => rfl

/-- C4 (amended): after `complete_scan`, the state file still exists but
holds `completed = True`, and a subsequent start detects no interrupted
scan (`detect_crash` is false); the file is only removed by
`clear_scan_state`. -/
theorem C4_complete_scan_keeps_state_file (fs : RecoveryFs) (sid : Int)
    (d : PyDict) (st : ScanState)
    (h1 : fs.current_scan = some d) (h2 : ScanState.from_dict d = some st) :
    (complete_scan fs sid).current_scan = some (setKey d "completed" (.bool true))
      ∧ detect_crash (complete_scan fs sid) = false := by
  have hc : complete_scan fs sid
      = { fs with current_scan := some (setKey d "completed" (.bool true)) } := by
    unfold complete_scan
    rw [h1]
  refine ⟨by rw [hc], ?_⟩
  rw [hc]
  unfold detect_crash
  dsimp only
  rw [from_dict_setKey_completed, h2]
  rfl

/-- C4 witness: a concrete scan is started and completed; the file persists
with `completed = True` and no crash is detected. -/
theorem C4_complete_scan_keeps_state_file_witness :
    (complete_scan (start_scan ⟨none⟩ 1 "/test/path" 10 sampleNow) 1).current_scan
        = some (setKey (start_scan ⟨none⟩ 1 "/test/path" 10 sampleNow).current_scan.iget
            "completed" (.bool true))
      ∧ detect_crash (complete_scan (start_scan ⟨none⟩ 1 "/test/path" 10 sampleNow) 1)
          = false :=
  C4_complete_scan_keeps_state_file (start_scan ⟨none⟩ 1 "/test/path" 10 sampleNow) 1
    (start_scan ⟨none⟩ 1 "/test/path" 10 sampleNow).current_scan.iget
    ⟨1, "/test/path", sampleNow, 10, 0, false⟩ rfl (by decide)

/-- C4 counterexample: after `complete_scan` the state file
`current_scan.json` still exists, contradicting the claim that it no longer
does. -/
theorem C4_counterexample :
    (complete_scan (start_scan ⟨none⟩ 1 "/test/path" 10 sampleNow) 1).current_scan
      ≠ none := by decide

/-! ### C3 — a per-file failure aborts the Executor batch -/

/-- `_backup_file` touches only files and directories. -/
theorem backup_file_db_jsonl (cfg : Config) (pid : Nat) (src : Pth) (sz : Nat)
    (st : SysState) :
    (backup_file cfg pid src sz st).db = st.db
      ∧ (backup_file cfg pid src sz st).jsonl = st.jsonl := by
  unfold backup_file
  dsimp only
  split_ifs <;> exact ⟨rfl, rfl⟩

/-- A successfully processed file yields a state with exactly one more
`moves` row and an unchanged JSONL stream. -/
theorem execStepState_db_jsonl (cfg : Config) (pid : Nat) (fi : FileInfo)
    (dest : Pth) (st : SysState) :
    (execStepState cfg pid fi dest st).db.moves.length = st.db.moves.length + 1
      ∧ (execStepState cfg pid fi dest st).jsonl = st.jsonl := by
  have hb := backup_file_db_jsonl cfg pid fi.path fi.size
    { st with dirs := insertDir st.dirs dest.dropLast }
  unfold execStepState
  dsimp only
  constructor <;> by_cases he : cfg.backup_enabled <;>
    simp [he, log_move, add_move, hb.1, hb.2]

/-- With no exception on the file, `executeGo` recurses on the stepped
state. -/
theorem executeGo_cons_success (cfg : Config) (env : Pth → Bool) (pid : Nat)
    (fi : FileInfo) (dest : Pth) (rest : List (FileInfo × Pth)) (st : SysState)
    (moved : Nat) (hx : env fi.path = false) :
    executeGo cfg env pid ((fi, dest) :: rest) st moved
      = executeGo cfg env pid rest (execStepState cfg pid fi dest st) (moved + 1) := by
  have hstep : executeGo cfg env pid ((fi, dest) :: rest) st moved
      = if env fi.path then (log_execute st pid moved false, (false, moved))
        else executeGo cfg env pid rest (execStepState cfg pid fi dest st) (moved + 1) :=
    rfl
  rw [hstep, hx]
  rfl

/-- If every file before some file `f` of the batch processes cleanly and
`f` raises, the loop ends through the `except` branch: result
`(False, moved + pre.length)`, exactly one `moves` row per clean file, and
a single `execute` transition with `success = False` appended to the
JSONL stream. -/
theorem executeGo_stops_at_failure (cfg : Config) (env : Pth → Bool) (pid : Nat)
    (f : FileInfo × Pth) (post : List (FileInfo × Pth)) (hf : env f.1.path = true) :
    ∀ pre : List (FileInfo × Pth), (∀ x ∈ pre, env x.1.path = false) →
      ∀ (st : SysState) (moved : Nat),
        (executeGo cfg env pid (pre ++ f :: post) st moved).2
            = (false, moved + pre.length)
          ∧ (executeGo cfg env pid (pre ++ f :: post) st moved).1.db.moves.length
              = st.db.moves.length + pre.length
          ∧ (executeGo cfg env pid (pre ++ f :: post) st moved).1.jsonl
              = st.jsonl ++ [.executeEv pid (moved + pre.length) false] := by
  intro pre
  induction pre with
  | nil =>
    intro _ st moved
    obtain ⟨fi, dest⟩ := f
    have hf2 : env fi.path = true := hf
    rw [List.nil_append]
    unfold executeGo
    rw [hf2]
    exact ⟨rfl, rfl, rfl⟩
  | cons x t ih =>
    intro hpre st moved
    obtain ⟨fi, dest⟩ := x
    have hx : env fi.path = false := hpre (fi, dest) (List.mem_cons_self _ _)
    have heq := executeGo_cons_success cfg env pid fi dest (t ++ f :: post) st moved hx
    obtain ⟨hdb, hjs⟩ := execStepState_db_jsonl cfg pid fi dest st
    set st2 := execStepState cfg pid fi dest st with hst2
    rw [List.cons_append, heq]
    obtain ⟨h1, h2, h3⟩ := ih (fun y hy => hpre y (List.mem_cons_of_mem _ hy)) st2 (moved + 1)
    refine ⟨?_, ?_, ?_⟩
    · rw [h1, List.length_cons]
      exact congrArg _ (by omega)
    · rw [h2, hdb, List.length_cons]
      omega
    · rw [h3, hjs, List.length_cons]
      have harith : moved + 1 + t.length = moved + (t.length + 1) := by omega
      rw [harith]

/-- C3 (amended): for a proposal executed with `dry_run` false, a failure
while processing one file ends the whole batch through the single
`try/except` around the loop: the Executor returns
`(False, files_moved_so_far)`, appends an `execute` transition with
`success = False` and the partial count, writes `moves` rows only for the
files before the failing one, and does not process the remaining files. -/
theorem C3_execute_aborts_batch (cfg : Config) (env : Pth → Bool) (st : SysState)
    (proposal : OrganizationProposal) (pre post : List (FileInfo × Pth))
    (f : FileInfo × Pth)
    (hsplit : proposal.files = pre ++ f :: post)
    (hpre : ∀ x ∈ pre, env x.1.path = false)
    (hf : env f.1.path = true) :
    (execute_proposal cfg env st proposal false).2 = (false, pre.length)
      ∧ (execute_proposal cfg env st proposal false).1.db.moves.length
          = st.db.moves.length + pre.length
      ∧ (execute_proposal cfg env st proposal false).1.jsonl
          = st.jsonl
            ++ [.executeEv (proposal.proposal_id.getD 0) pre.length false] := by
  unfold execute_proposal
  rw [hsplit]
  simpa using
    executeGo_stops_at_failure cfg env (proposal.proposal_id.getD 0) f post hf
      pre hpre st 0

/-- C3 witness: the two-file proposal with a failure on the first file. -/
theorem C3_execute_aborts_batch_witness :
    (execute_proposal sampleCfg envFailA twoFilePropState twoFileProp false).2
        = (false, 0)
      ∧ (execute_proposal sampleCfg envFailA twoFilePropState twoFileProp
            false).1.db.moves.length = twoFilePropState.db.moves.length + 0
      ∧ (execute_proposal sampleCfg envFailA twoFilePropState twoFileProp
            false).1.jsonl
          = twoFilePropState.jsonl
            ++ [.executeEv (twoFileProp.proposal_id.getD 0) 0 false] :=
  C3_execute_aborts_batch sampleCfg envFailA twoFilePropState twoFileProp
    [] [(fiB, ["base", "Other", "x.txt"])] (fiA, ["base", "Other", "x.txt"])
    rfl (by intro x hx; cases hx) rfl

/-- C3 counterexample: with `dry_run` false and the first of two files
failing, the Executor returns `(False, 0)`, writes no `moves` row, and
leaves the second file sitting unprocessed at its source — it does not
process every remaining file as the claim states. -/
theorem C3_counterexample :
    (execute_proposal sampleCfg envFailA twoFilePropState twoFileProp false).2
        = (false, 0)
      ∧ (execute_proposal sampleCfg envFailA twoFilePropState twoFileProp
            false).1.db.moves = []
      ∧ (execute_proposal sampleCfg envFailA twoFilePropState twoFileProp
            false).1.files.lookup ["b", "x.txt"] = some "cb" := by decide

/-! ### C7 — redaction idempotence -/

/-- C7 (amended): the disabled redactor is the identity function, but the
enabled redactor is NOT idempotent in general: a replacement can expose a
fresh match for a later scan position, as with the overlapping email
patterns in `"a@b.co@c.com"`, whose second redaction differs from the
first. -/
theorem C7_redact_disabled_id_enabled_not_idempotent :
    (∀ (n : Nat) (t : String), redact ⟨false, n⟩ t = t)
      ∧ redact rdOn (redact rdOn "a@b.co@c.com") ≠ redact rdOn "a@b.co@c.com" :=
  ⟨fun _ _ => rfl, by decide⟩

/-- C7 counterexample: redacting `"a@b.co@c.com"` once gives
`"****@b.co@c.com"`; redacting again matches the freshly exposed
`b.co@c.com` and gives `"****@****@c.com"`, so `redact ∘ redact ≠ redact`
on this input with the redactor enabled. -/
theorem C7_counterexample :
    redact rdOn (redact rdOn "a@b.co@c.com") ≠ redact rdOn "a@b.co@c.com" := by
  decide

/-! ### C8 — risk-score monotonicity -/

/-- C8: the risk score is monotonic in its contributing factors — with the
same suffix, adding sensitive match classes (`flagsLe`) or any other
contributing condition (size over threshold, recent modification) never
decreases the score of `calculate_risk_score`, and the additive total is
clamped to at most 100. -/
theorem C8_risk_score_monotone (rd : Redactor) (suffix c c2 : String)
    (sz sz2 : Nat) (rm rm2 : Bool)
    (hf : flagsLe (contentFlags rd c) (contentFlags rd c2))
    (hsz : sz > 500 * 1024 * 1024 → sz2 > 500 * 1024 * 1024)
    (hrm : rm = true → rm2 = true) :
    (calculate_risk_score rd suffix c sz rm).1
        ≤ (calculate_risk_score rd suffix c2 sz2 rm2).1
      ∧ (calculate_risk_score rd suffix c sz rm).1 ≤ 100 := by
  rw [calculate_risk_score_eq, calculate_risk_score_eq]
  constructor
  · have h1 := flagsScore_mono hf
    have h2 : envScore suffix sz rm ≤ envScore suffix sz2 rm2 := by
      unfold envScore
      have e1 : (if sz > 500 * 1024 * 1024 then 10 else 0)
          ≤ (if sz2 > 500 * 1024 * 1024 then 10 else 0) := by
        by_cases hc : sz > 500 * 1024 * 1024
        · rw [if_pos hc, if_pos (hsz hc)]
        · rw [if_neg hc]
          exact Nat.zero_le _
      have e3 : (if rm then 20 else 0) ≤ (if rm2 then 20 else 0) := by
        cases rm with
        | false => exact Nat.zero_le _
        | true => rw [hrm rfl]
      exact Nat.add_le_add (Nat.add_le_add e1 le_rfl) e3
    exact min_le_min (Nat.add_le_add h1 h2) le_rfl
  · exact Nat.min_le_right _ _

/-- C8 witness: empty content versus content containing an SSN, with the
recent-modification condition added as well. -/
theorem C8_risk_score_monotone_witness :
    ((calculate_risk_score rdOn ".txt" "" 0 false).1
        ≤ (calculate_risk_score rdOn ".txt" "123-45-6789" 0 true).1
      ∧ (calculate_risk_score rdOn ".txt" "" 0 false).1 ≤ 100) :=
  C8_risk_score_monotone rdOn ".txt" "" "123-45-6789" 0 0 false true
    (by decide) (fun h => h) (fun _ => rfl)

/-! ### C10 — `ScanState` serialization round trip -/

theorem natDigitsAux_eq (fuel : Nat) : ∀ n : Nat, n ≤ fuel →
    natDigitsAux fuel n = Nat.digits 10 n := by
  induction fuel with
  | zero =>
    intro n hn
    have : n = 0 := Nat.le_zero.mp hn
    subst this
    simp [natDigitsAux]
  | succ f ih =>
    intro n hn
    cases n with
    | zero => simp [natDigitsAux]
    | succ m =>
      have hstep : natDigitsAux (f + 1) (m + 1)
          = ((m + 1) % 10) :: natDigitsAux f ((m + 1) / 10) := rfl
      rw [hstep, ih ((m + 1) / 10) (by omega),
        Nat.digits_def' (by norm_num : 1 < 10) (Nat.succ_pos m)]

theorem digits_len_le {n w : Nat} (h : n < 10 ^ w) :
    (Nat.digits 10 n).length ≤ w := by
  by_contra hlt
  push_neg at hlt
  rcases Nat.eq_zero_or_pos n with hn | hn
  · subst hn
    simp at hlt
  · have h2 := Nat.base_pow_length_digits_le 10 n (by norm_num) (by omega)
    have h3 : (10 : Nat) ^ (w + 1) ≤ 10 ^ (Nat.digits 10 n).length :=
      Nat.pow_le_pow_right (by norm_num) (by omega)
    have h4 : 10 * n < 10 ^ (w + 1) := by
      rw [pow_succ]
      omega
    omega

theorem digitChar_toNat {d : Nat} (h : d < 10) : (digitChar d).toNat = 48 + d := by
  interval_cases d <;> decide

theorem parseNat_map_digitChar (ds : List Nat) (h : ∀ d ∈ ds, d < 10) :
    ∀ acc : Nat,
      (ds.map digitChar).foldl (fun a c => a * 10 + (c.toNat - 48)) acc
        = ds.foldl (fun a d => a * 10 + d) acc := by
  induction ds with
  | nil => intro acc; rfl
  | cons d t ih =>
    intro acc
    simp only [List.map_cons, List.foldl_cons]
    rw [digitChar_toNat (h d (List.mem_cons_self _ _))]
    have h48 : 48 + d - 48 = d := by omega
    rw [h48]
    exact ih (fun x hx => h x (List.mem_cons_of_mem _ hx)) _

theorem foldl_base10_replicate_zero (k : Nat) :
    (List.replicate k 0).foldl (fun a d => a * 10 + d) 0 = 0 := by
  induction k with
  | zero => rfl
  | succ n ih => simpa [List.replicate_succ] using ih

theorem foldl_base10_reverse (l : List Nat) :
    l.reverse.foldl (fun a d => a * 10 + d) 0 = Nat.ofDigits 10 l := by
  induction l with
  | nil => rfl
  | cons d t ih =>
    rw [List.reverse_cons, List.foldl_append, ih, Nat.ofDigits_cons]
    simp only [List.foldl_cons, List.foldl_nil]
    ring

/-- Parsing back a zero-padded decimal rendering recovers the number. -/
theorem parseNat_fmtNum (w n : Nat) : parseNat (fmtNum w n) = n := by
  unfold parseNat fmtNum padDigits
  have hdig : natDigits n = (Nat.digits 10 n).reverse := by
    unfold natDigits
    rw [natDigitsAux_eq n n le_rfl]
  have hds : ∀ d ∈ natDigits n, d < 10 := by
    intro d hd
    rw [hdig] at hd
    exact Nat.digits_lt_base (by norm_num) (List.mem_reverse.mp hd)
  have hall : ∀ d ∈ List.replicate (w - (natDigits n).length) 0 ++ natDigits n,
      d < 10 := by
    intro d hd
    rcases List.mem_append.mp hd with h | h
    · have := List.eq_of_mem_replicate h
      omega
    · exact hds d h
  rw [parseNat_map_digitChar _ hall, List.foldl_append,
    foldl_base10_replicate_zero, hdig, foldl_base10_reverse]
  exact Nat.ofDigits_digits 10 n

/-- The rendering has exactly width `w` when the number fits. -/
theorem fmtNum_length {w n : Nat} (h : n < 10 ^ w) : (fmtNum w n).length = w := by
  unfold fmtNum padDigits
  rw [List.length_map, List.length_append, List.length_replicate]
  have hlen : (natDigits n).length ≤ w := by
    unfold natDigits
    rw [natDigitsAux_eq n n le_rfl, List.length_reverse]
    exact digits_len_le h
  omega

/-- `fromisoformat` is a left inverse of `isoformat` on valid datetimes. -/
theorem iso_roundtrip (d : PyDateTime) (hv : d.valid) :
    fromisoformat (isoformat d) = some d := by
  obtain ⟨y, mo, da, hr, mi, sec, mu⟩ := d
  obtain ⟨hy, hmo, hda, hhr, hmi, hsec, hmu⟩ := hv
  dsimp only at hy hmo hda hhr hmi hsec hmu
  have hpow2 : (10 : Nat) ^ 2 = 100 := by norm_num
  have hpow4 : (10 : Nat) ^ 4 = 10000 := by norm_num
  have hpow6 : (10 : Nat) ^ 6 = 1000000 := by norm_num
  have hA : (fmtNum 4 y).length = 4 := fmtNum_length (by omega)
  have hB : (fmtNum 2 mo).length = 2 := fmtNum_length (by omega)
  have hC : (fmtNum 2 da).length = 2 := fmtNum_length (by omega)
  have hE : (fmtNum 2 hr).length = 2 := fmtNum_length (by omega)
  have hF : (fmtNum 2 mi).length = 2 := fmtNum_length (by omega)
  have hG : (fmtNum 2 sec).length = 2 := fmtNum_length (by omega)
  have hM : (fmtNum 6 mu).length = 6 := fmtNum_length (by omega)
  set tl : List Char := if mu ≠ 0 then '.' :: fmtNum 6 mu else [] with htl
  have hshape : (isoformat ⟨y, mo, da, hr, mi, sec, mu⟩).data
      = fmtNum 4 y ++ '-' :: (fmtNum 2 mo ++ '-' :: (fmtNum 2 da
        ++ 'T' :: (fmtNum 2 hr ++ ':' :: (fmtNum 2 mi
        ++ ':' :: (fmtNum 2 sec ++ tl))))) := by
    show isoChars _ = _
    simp [isoChars, htl]
  have d4 : ((isoformat ⟨y, mo, da, hr, mi, sec, mu⟩).data).drop 4
      = '-' :: (fmtNum 2 mo ++ '-' :: (fmtNum 2 da ++ 'T' :: (fmtNum 2 hr
        ++ ':' :: (fmtNum 2 mi ++ ':' :: (fmtNum 2 sec ++ tl))))) := by
    rw [hshape]
    exact List.drop_left' hA
  have d5 : ((isoformat ⟨y, mo, da, hr, mi, sec, mu⟩).data).drop 5
      = fmtNum 2 mo ++ '-' :: (fmtNum 2 da ++ 'T' :: (fmtNum 2 hr
        ++ ':' :: (fmtNum 2 mi ++ ':' :: (fmtNum 2 sec ++ tl)))) := by
    have := List.drop_drop 1 4 ((isoformat ⟨y, mo, da, hr, mi, sec, mu⟩).data)
    rw [show (4 + 1 : Nat) = 5 from rfl] at this
    rw [← this, d4]
    rfl
  have d7 : ((isoformat ⟨y, mo, da, hr, mi, sec, mu⟩).data).drop 7
      = '-' :: (fmtNum 2 da ++ 'T' :: (fmtNum 2 hr ++ ':' :: (fmtNum 2 mi
        ++ ':' :: (fmtNum 2 sec ++ tl)))) := by
    have := List.drop_drop 2 5 ((isoformat ⟨y, mo, da, hr, mi, sec, mu⟩).data)
    rw [show (5 + 2 : Nat) = 7 from rfl] at this
    rw [← this, d5]
    exact List.drop_left' hB
  have d8 : ((isoformat ⟨y, mo, da, hr, mi, sec, mu⟩).data).drop 8
      = fmtNum 2 da ++ 'T' :: (fmtNum 2 hr ++ ':' :: (fmtNum 2 mi
        ++ ':' :: (fmtNum 2 sec ++ tl))) := by
    have := List.drop_drop 1 7 ((isoformat ⟨y, mo, da, hr, mi, sec, mu⟩).data)
    rw [show (7 + 1 : Nat) = 8 from rfl] at this
    rw [← this, d7]
    rfl
  have d10 : ((isoformat ⟨y, mo, da, hr, mi, sec, mu⟩).data).drop 10
      = 'T' :: (fmtNum 2 hr ++ ':' :: (fmtNum 2 mi
        ++ ':' :: (fmtNum 2 sec ++ tl))) := by
    have := List.drop_drop 2 8 ((isoformat ⟨y, mo, da, hr, mi, sec, mu⟩).data)
    rw [show (8 + 2 : Nat) = 10 from rfl] at this
    rw [← this, d8]
    exact List.drop_left' hC
  have d11 : ((isoformat ⟨y, mo, da, hr, mi, sec, mu⟩).data).drop 11
      = fmtNum 2 hr ++ ':' :: (fmtNum 2 mi ++ ':' :: (fmtNum 2 sec ++ tl)) := by
    have := List.drop_drop 1 10 ((isoformat ⟨y, mo, da, hr, mi, sec, mu⟩).data)
    rw [show (10 + 1 : Nat) = 11 from rfl] at this
    rw [← this, d10]
    rfl
  have d13 : ((isoformat ⟨y, mo, da, hr, mi, sec, mu⟩).data).drop 13
      = ':' :: (fmtNum 2 mi ++ ':' :: (fmtNum 2 sec ++ tl)) := by
    have := List.drop_drop 2 11 ((isoformat ⟨y, mo, da, hr, mi, sec, mu⟩).data)
    rw [show (11 + 2 : Nat) = 13 from rfl] at this
    rw [← this, d11]
    exact List.drop_left' hE
  have d14 : ((isoformat ⟨y, mo, da, hr, mi, sec, mu⟩).data).drop 14
      = fmtNum 2 mi ++ ':' :: (fmtNum 2 sec ++ tl) := by
    have := List.drop_drop 1 13 ((isoformat ⟨y, mo, da, hr, mi, sec, mu⟩).data)
    rw [show (13 + 1 : Nat) = 14 from rfl] at this
    rw [← this, d13]
    rfl
  have d16 : ((isoformat ⟨y, mo, da, hr, mi, sec, mu⟩).data).drop 16
      = ':' :: (fmtNum 2 sec ++ tl) := by
    have := List.drop_drop 2 14 ((isoformat ⟨y, mo, da, hr, mi, sec, mu⟩).data)
    rw [show (14 + 2 : Nat) = 16 from rfl] at this
    rw [← this, d14]
    exact List.drop_left' hF
  have d17 : ((isoformat ⟨y, mo, da, hr, mi, sec, mu⟩).data).drop 17
      = fmtNum 2 sec ++ tl := by
    have := List.drop_drop 1 16 ((isoformat ⟨y, mo, da, hr, mi, sec, mu⟩).data)
    rw [show (16 + 1 : Nat) = 17 from rfl] at this
    rw [← this, d16]
    rfl
  have d19 : ((isoformat ⟨y, mo, da, hr, mi, sec, mu⟩).data).drop 19 = tl := by
    have := List.drop_drop 2 17 ((isoformat ⟨y, mo, da, hr, mi, sec, mu⟩).data)
    rw [show (17 + 2 : Nat) = 19 from rfl] at this
    rw [← this, d17]
    exact List.drop_left' hG
  have d20 : ((isoformat ⟨y, mo, da, hr, mi, sec, mu⟩).data).drop 20 = tl.drop 1 := by
    have := List.drop_drop 1 19 ((isoformat ⟨y, mo, da, hr, mi, sec, mu⟩).data)
    rw [show (19 + 1 : Nat) = 20 from rfl] at this
    rw [← this, d19]
  have t4 : ((isoformat ⟨y, mo, da, hr, mi, sec, mu⟩).data).take 4 = fmtNum 4 y := by
    rw [hshape]
    exact List.take_left' hA
  have t5 : (((isoformat ⟨y, mo, da, hr, mi, sec, mu⟩).data).drop 5).take 2
      = fmtNum 2 mo := by
    rw [d5]
    exact List.take_left' hB
  have t8 : (((isoformat ⟨y, mo, da, hr, mi, sec, mu⟩).data).drop 8).take 2
      = fmtNum 2 da := by
    rw [d8]
    exact List.take_left' hC
  have t11 : (((isoformat ⟨y, mo, da, hr, mi, sec, mu⟩).data).drop 11).take 2
      = fmtNum 2 hr := by
    rw [d11]
    exact List.take_left' hE
  have t14 : (((isoformat ⟨y, mo, da, hr, mi, sec, mu⟩).data).drop 14).take 2
      = fmtNum 2 mi := by
    rw [d14]
    exact List.take_left' hF
  have t17 : (((isoformat ⟨y, mo, da, hr, mi, sec, mu⟩).data).drop 17).take 2
      = fmtNum 2 sec := by
    rw [d17]
    exact List.take_left' hG
  unfold fromisoformat
  dsimp only
  rw [if_pos (by rw [d4, d7, d10, d13, d16]; exact ⟨rfl, rfl, rfl, rfl, rfl⟩)]
  rw [t4, t5, t8, t11, t14, t17, d19, d20]
  by_cases hz : mu = 0
  · subst hz
    rw [htl]
    simp [parseNat_fmtNum]
  · rw [htl, if_pos hz]
    have hhead : (('.' :: fmtNum 6 mu) : List Char).head? = some '.' := rfl
    have hdrop : (('.' :: fmtNum 6 mu) : List Char).drop 1 = fmtNum 6 mu := rfl
    rw [if_pos hhead, hdrop, List.take_of_length_le (le_of_eq hM)]
    simp [parseNat_fmtNum]

/-- C10: `ScanState.from_dict ∘ ScanState.to_dict` is the identity — the
six fields, including `started_at` through the
`isoformat`/`fromisoformat` pair, all round-trip. -/
theorem C10_scanstate_roundtrip (s : ScanState) (hv : s.started_at.valid) :
    ScanState.from_dict s.to_dict = some s := by
  obtain ⟨sid, p, dt, tot, proc, comp⟩ := s
  have e1 : (ScanState.to_dict ⟨sid, p, dt, tot, proc, comp⟩).lookup "scan_id"
      = some (.int sid) := rfl
  have e2 : (ScanState.to_dict ⟨sid, p, dt, tot, proc, comp⟩).lookup "path"
      = some (.str p) := rfl
  have e3 : (ScanState.to_dict ⟨sid, p, dt, tot, proc, comp⟩).lookup "started_at"
      = some (.str (isoformat dt)) := rfl
  have e4 : (ScanState.to_dict ⟨sid, p, dt, tot, proc, comp⟩).lookup "total_files"
      = some (.int tot) := rfl
  have e5 : (ScanState.to_dict ⟨sid, p, dt, tot, proc, comp⟩).lookup "processed_files"
      = some (.int proc) := rfl
  have e6 : (ScanState.to_dict ⟨sid, p, dt, tot, proc, comp⟩).lookup "completed"
      = some (.bool comp) := rfl
  unfold ScanState.from_dict
  rw [e1, e2, e3, e4, e5, e6]
  dsimp only
  rw [iso_roundtrip dt hv]

/-- C10 witness: a concrete `ScanState` with microseconds. -/
theorem C10_scanstate_roundtrip_witness :
    ScanState.from_dict
        (ScanState.to_dict ⟨1, "/test/path", ⟨2026, 10, 12, 23, 59, 58, 123456⟩, 10, 4, false⟩)
      = some ⟨1, "/test/path", ⟨2026, 10, 12, 23, 59, 58, 123456⟩, 10, 4, false⟩ :=
  C10_scanstate_roundtrip ⟨1, "/test/path", ⟨2026, 10, 12, 23, 59, 58, 123456⟩, 10, 4, false⟩
    (by decide)

end SmartFile
